import Mathlib

/-!
# Verification of the grid-universe push / portal / authoring layer

Shallow embedding of `grid_universe/systems/push.py`,
`grid_universe/systems/portal.py` and the authoring logic of
`app/config/sources/editor_source.py`, together with proofs of the
behavioural properties claimed for them.

Component stores are persistent maps (`pyrsistent.PMap`) in the source;
here they are association lists with functional update, which have the
same `get`/`set` semantics.
-/

namespace GridUniverse

/-- Modelled from the spec: `Position` component (`components/properties/position.py`
is not under the provided sources). Spec §3: "integer (x, y)". Coordinates are
unbounded integers; bounds checks are explicit where the systems perform them. -/
structure Position where
  x : Int
  y : Int
deriving DecidableEq, Repr

/-- Modelled from the spec: `Portal` component — "a pairing reference to exactly
one other portal entity" (spec §3). -/
structure Portal where
  pair_entity : Nat
deriving DecidableEq, Repr

/-- Modelled from the spec: the active movement rule. The source selects among a
closed registry of move functions and `push.py` tests `state.move_fn is
wrap_around_move_fn` by identity; an enumeration captures exactly that
distinction (spec §9: "a small closed set of named strategies"). -/
inductive MoveFn where
  | default_move
  | wrap_around
deriving DecidableEq, Repr

/-- Modelled from the spec: the active objective rule, never inspected by the
systems verified here (spec §2, pluggable strategy). -/
inductive ObjectiveFn where
  | default_objective
deriving DecidableEq, Repr

/-- Modelled from the spec: `PMap.get` on a component store — association-list
lookup returning `Option`. -/
def store_get {α β : Type} [DecidableEq α] : List (α × β) → α → Option β
  | [], _ => none
  | (k, v) :: rest, a => if a = k then some v else store_get rest a

/-- Modelled from the spec: `PMap.set` on a component store — functional update
(replace the binding if present, append otherwise). -/
def store_set {α β : Type} [DecidableEq α] (m : List (α × β)) (a : α) (b : β) :
    List (α × β) :=
  match m with
  | [] => [(a, b)]
  | (k, v) :: rest => if a = k then (k, b) :: rest else (k, v) :: store_set rest a b

/-- Modelled from the spec: the aggregate immutable `State` snapshot
(`grid_universe/state.py` is not under the provided sources). Spec §2/§3: fixed
grid dimensions, the active movement and objective rules, a seed, one store per
component kind, previous positions and per-step movement trails. Payload types
the verified systems never read (health, damage, status, …) are abstracted to
numbers; tag components are entity-id sets. -/
structure State where
  width : Nat
  height : Nat
  move_fn : MoveFn
  objective_fn : ObjectiveFn
  seed : Nat
  position : List (Nat × Position)
  prev_position : List (Nat × Position)
  trail : List (Position × List Nat)
  pushable : List Nat
  collidable : List Nat
  blocking : List Nat
  agent : List Nat
  dead : List Nat
  portal : List (Nat × Portal)
  health : List (Nat × Nat)
  damage : List (Nat × Nat)
  lethal_damage : List Nat
  moving : List (Nat × Nat)
  status : List (Nat × Nat)
  required : List Nat
  rewardable : List (Nat × Nat)
  cost : List (Nat × Nat)
  collectible : List Nat
  exit : List Nat
  inventory : List (Nat × List Nat)
deriving DecidableEq, Repr

/-- Modelled from the spec: `utils.grid.is_in_bounds` (not under the provided
sources). Spec §3: positions lie within `[0, width) × [0, height)`. -/
def is_in_bounds (s : State) (p : Position) : Bool :=
  decide (0 ≤ p.x ∧ p.x < (s.width : Int) ∧ 0 ≤ p.y ∧ p.y < (s.height : Int))

/-- Modelled from the spec: `utils.grid.wrap_position` (not under the provided
sources). Spec §3: under the wrap rule "positions are taken modulo
width/height". `Int.emod` agrees with Python `%` for positive moduli. -/
def wrap_position (x y : Int) (width height : Nat) : Position :=
  ⟨x % (width : Int), y % (height : Int)⟩

/-- Modelled from the spec: `utils.grid.is_blocked_at` (not under the provided
sources). Spec §4.3: a cell is blocked when "occupied by any
`Blocking`/`Collidable` entity under the active collision policy"; the
`check_collidable` flag enables the collidable half of the check. -/
def is_blocked_at (s : State) (pos : Position) (check_collidable : Bool) : Bool :=
  s.position.any fun pr =>
    decide (store_get s.position pr.1 = some pos ∧
      (pr.1 ∈ s.blocking ∨ (check_collidable = true ∧ pr.1 ∈ s.collidable)))

/-- Modelled from the spec: `utils.ecs.entities_with_components_at` (not under
the provided sources). Spec §4.3 precondition: "`target_cell` holds one or more
entities tagged `Pushable`" — the entities whose current position is the given
cell and that belong to the given tag store. -/
def entities_with_components_at (s : State) (pos : Position) (store : List Nat) :
    List Nat :=
  (s.position.filter fun pr =>
    decide (store_get s.position pr.1 = some pos ∧ pr.1 ∈ store)).map Prod.fst

/-- Modelled from the spec: `utils.trail.add_trail_position` (not under the
provided sources). Spec §3/§4.1: the trail is a purely derived, side-effect
free record of cells visited this step, so extending it returns a new state
("State transitions never mutate a prior snapshot in place", spec §3). -/
def add_trail_position (s : State) (eid : Nat) (pos : Position) : State :=
  { s with trail :=
      (store_set s.trail pos (((store_get s.trail pos).getD []) ++ [eid])) }

/-- `compute_destination` from `grid_universe/systems/push.py`: the square
beyond `next_pos` in the movement direction, wrapped when the state's move
function is the wrapping one, `none` if out of bounds and not wrapping. -/
def compute_destination (s : State) (current_pos next_pos : Position) :
    Option Position :=
  let dx := next_pos.x - current_pos.x
  let dy := next_pos.y - current_pos.y
  let dest_x := next_pos.x + dx
  let dest_y := next_pos.y + dy
  if s.move_fn = MoveFn.wrap_around then
    some (wrap_position dest_x dest_y s.width s.height)
  else
    let target_position : Position := ⟨dest_x, dest_y⟩
    if is_in_bounds s target_position then some target_position else none

/-- `push_system` from `grid_universe/systems/push.py`. The source calls
`add_trail_position(state, pushable_id, push_to)` inside the relocation loop
and discards the returned state (bound to `_trail` below to mirror the call);
the state returned by the system therefore carries the input's trail store. -/
def push_system (s : State) (eid : Nat) (next_pos : Position) : State :=
  match store_get s.position eid with
  | none => s
  | some current_pos =>
    let pushable_ids := entities_with_components_at s next_pos s.pushable
    if pushable_ids = [] then s
    else
      match compute_destination s current_pos next_pos with
      | none => s
      | some push_to =>
        if is_blocked_at s push_to true then s
        else
          let new_position :=
            pushable_ids.foldl (fun m pushable_id =>
                let _trail := add_trail_position s pushable_id push_to
                store_set m pushable_id push_to)
              (store_set s.position eid next_pos)
          { s with position := new_position }

/-- `portal_system_entity` from `grid_universe/systems/portal.py`: teleport the
collidable entities entering the given portal (present in the augmented trail
at its cell with previous position different from current) to its pair's
position. -/
def portal_system_entity (s : State) (augmented_trail : List (Position × List Nat))
    (portal_id : Nat) : State :=
  match store_get s.portal portal_id, store_get s.position portal_id with
  | some portal_c, some portal_position =>
    match store_get s.position portal_c.pair_entity with
    | none => s
    | some pair_position =>
      let entity_ids :=
        ((store_get augmented_trail portal_position).getD []).filter fun e =>
          decide (e ∈ s.collidable)
      let entering_entity_ids := entity_ids.filter fun e =>
        decide (store_get s.prev_position e ≠ store_get s.position e)
      { s with position :=
          (entering_entity_ids.foldl (fun m e => store_set m e pair_position)
            s.position) }
  | _, _ => s

/-- Modelled from the spec: `utils.trail.get_augmented_trail` (not under the
provided sources). Spec §4.1: for the given entity ids, map each cell to the
ids that occupy it now or transited it this step (trail cells plus final
resting positions). -/
def get_augmented_trail (s : State) (ids : List Nat) :
    List (Position × List Nat) :=
  ids.foldl
    (fun acc e =>
      match store_get s.position e with
      | some p => store_set acc p (((store_get acc p).getD []) ++ [e])
      | none => acc)
    (s.trail.map fun cell => (cell.1, cell.2.filter fun e => decide (e ∈ ids)))

/-- `portal_system` from `grid_universe/systems/portal.py`: compute the
augmented trail for the collidable entities once, then apply
`portal_system_entity` for every portal id in the portal store in order. -/
def portal_system (s : State) : State :=
  let augmented_trail := get_augmented_trail s s.collidable
  (s.portal.map Prod.fst).foldl
    (fun st portal_id => portal_system_entity st augmented_trail portal_id) s

/-- Example level from the spec scenarios: a 3×1 bounded grid with a collidable
agent (entity 0) at (0,0) and a pushable, collidable box (entity 1) at (1,0). -/
def push_demo_state : State :=
  { width := 3, height := 1,
    move_fn := MoveFn.default_move,
    objective_fn := ObjectiveFn.default_objective,
    seed := 0,
    position := [(0, ⟨0, 0⟩), (1, ⟨1, 0⟩)],
    prev_position := [(0, ⟨0, 0⟩), (1, ⟨1, 0⟩)],
    trail := [],
    pushable := [1],
    collidable := [0, 1],
    blocking := [],
    agent := [0],
    dead := [],
    portal := [],
    health := [(0, 5)],
    damage := [],
    lethal_damage := [],
    moving := [],
    status := [],
    required := [],
    rewardable := [],
    cost := [],
    collectible := [],
    exit := [],
    inventory := [] }

/-- A 4×1 bounded grid with a collidable agent (entity 0) at (0,0) and two
pushable, collidable boxes (entities 1 and 2) at (1,0) and (2,0); cell (3,0)
is free, so a chained push would be possible if the system resolved chains. -/
def chain_state : State :=
  { width := 4, height := 1,
    move_fn := MoveFn.default_move,
    objective_fn := ObjectiveFn.default_objective,
    seed := 0,
    position := [(0, ⟨0, 0⟩), (1, ⟨1, 0⟩), (2, ⟨2, 0⟩)],
    prev_position := [(0, ⟨0, 0⟩), (1, ⟨1, 0⟩), (2, ⟨2, 0⟩)],
    trail := [],
    pushable := [1, 2],
    collidable := [0, 1, 2],
    blocking := [],
    agent := [0],
    dead := [],
    portal := [],
    health := [(0, 5)],
    damage := [],
    lethal_damage := [],
    moving := [],
    status := [],
    required := [],
    rewardable := [],
    cost := [],
    collectible := [],
    exit := [],
    inventory := [] }

/-- Spec portal scenario on a 5×5 grid: portal 10 at (0,0) paired with portal
11 at (4,4); collidable agent 0 is at (0,0) having just moved there (previous
position (1,0)); collidable entity 3 started the step resting at (0,0). -/
def portal_demo_state : State :=
  { width := 5, height := 5,
    move_fn := MoveFn.default_move,
    objective_fn := ObjectiveFn.default_objective,
    seed := 0,
    position := [(0, ⟨0, 0⟩), (3, ⟨0, 0⟩), (10, ⟨0, 0⟩), (11, ⟨4, 4⟩)],
    prev_position := [(0, ⟨1, 0⟩), (3, ⟨0, 0⟩), (10, ⟨0, 0⟩), (11, ⟨4, 4⟩)],
    trail := [],
    pushable := [],
    collidable := [0, 3],
    blocking := [],
    agent := [0],
    dead := [],
    portal := [(10, ⟨11⟩), (11, ⟨10⟩)],
    health := [(0, 5)],
    damage := [],
    lethal_damage := [],
    moving := [],
    status := [],
    required := [],
    rewardable := [],
    cost := [],
    collectible := [],
    exit := [],
    inventory := [] }

/-- Augmented trail for the portal scenario: entities 0 and 3 are recorded at
the portal cell (0,0) this step. -/
def portal_demo_aug : List (Position × List Nat) := [(⟨0, 0⟩, [0, 3])]

/-- The portal scenario with a blocking wall (entity 5) standing on the paired
portal's cell (4,4). -/
def portal_blocked_state : State :=
  { width := 5, height := 5,
    move_fn := MoveFn.default_move,
    objective_fn := ObjectiveFn.default_objective,
    seed := 0,
    position := [(0, ⟨0, 0⟩), (5, ⟨4, 4⟩), (10, ⟨0, 0⟩), (11, ⟨4, 4⟩)],
    prev_position := [(0, ⟨1, 0⟩), (5, ⟨4, 4⟩), (10, ⟨0, 0⟩), (11, ⟨4, 4⟩)],
    trail := [],
    pushable := [],
    collidable := [0, 5],
    blocking := [5],
    agent := [0],
    dead := [],
    portal := [(10, ⟨11⟩), (11, ⟨10⟩)],
    health := [(0, 5)],
    damage := [],
    lethal_damage := [],
    moving := [],
    status := [],
    required := [],
    rewardable := [],
    cost := [],
    collectible := [],
    exit := [],
    inventory := [] }

/-- A state whose portal 20 pairs to entity 99, which has no position: a
dangling pair reference. -/
def dangling_portal_state : State :=
  { width := 5, height := 5,
    move_fn := MoveFn.default_move,
    objective_fn := ObjectiveFn.default_objective,
    seed := 0,
    position := [(0, ⟨0, 0⟩), (20, ⟨0, 0⟩)],
    prev_position := [(0, ⟨1, 0⟩), (20, ⟨0, 0⟩)],
    trail := [],
    pushable := [],
    collidable := [0],
    blocking := [],
    agent := [0],
    dead := [],
    portal := [(20, ⟨99⟩)],
    health := [(0, 5)],
    damage := [],
    lethal_damage := [],
    moving := [],
    status := [],
    required := [],
    rewardable := [],
    cost := [],
    collectible := [],
    exit := [],
    inventory := [] }

/-- All fields of a state other than the position store agree with those of a
reference state. -/
def agrees_off_position (s2 s : State) : Prop :=
  s2.width = s.width ∧ s2.height = s.height ∧ s2.move_fn = s.move_fn ∧
  s2.objective_fn = s.objective_fn ∧ s2.seed = s.seed ∧
  s2.prev_position = s.prev_position ∧ s2.trail = s.trail ∧
  s2.pushable = s.pushable ∧ s2.collidable = s.collidable ∧
  s2.blocking = s.blocking ∧ s2.agent = s.agent ∧ s2.dead = s.dead ∧
  s2.portal = s.portal ∧ s2.health = s.health ∧ s2.damage = s.damage ∧
  s2.lethal_damage = s.lethal_damage ∧ s2.moving = s.moving ∧
  s2.status = s.status ∧ s2.required = s.required ∧
  s2.rewardable = s.rewardable ∧ s2.cost = s.cost ∧
  s2.collectible = s.collectible ∧ s2.exit = s.exit ∧
  s2.inventory = s.inventory

/-- Modelled from the spec: the environment wrapper (`GridUniverseEnv` lives
outside the provided sources). Only the construction data `_make_env` passes
on is kept: the authored sample state and the grid dimensions. -/
structure GridUniverseEnv where
  initial_state : State
  width : Nat
  height : Nat
deriving DecidableEq, Repr

/-- The message of the one authoring error `_make_env` raises. -/
def agent_error_message : String :=
  "Level must contain an Agent. Use the Agent tool in the palette to place one before starting."

/-- `_make_env` from `app/config/sources/editor_source.py`: build the sample
state and raise if the authored level has no agent entity, else construct the
environment. The level-to-state construction (`_build_level_from_tokens` plus
`to_state`, the latter outside the provided sources) is abstracted into the
given sample state; every per-token or pairing fault inside
`_build_level_from_tokens` is swallowed there (`except: continue` /
`except: pass`), so the agent check is the single raise surfaced. -/
def _make_env (sample_state : State) : Except String GridUniverseEnv :=
  if sample_state.agent = [] then
    Except.error agent_error_message
  else
    Except.ok ⟨sample_state, sample_state.width, sample_state.height⟩

/-- `push_demo_state` stripped of its agent: an authored level with no agent
entity. -/
def no_agent_state : State :=
  { push_demo_state with agent := [], health := [] }

/-- Sequential reading-order pairing from `_build_level_from_tokens`: the
consecutive disjoint pairs `(ordered[i], ordered[i+1])` for even `i` (also the
shape `_pair_portals` stores in the session). -/
def seq_pairs : List Position → List (Position × Position)
  | a :: b :: rest => (a, b) :: seq_pairs rest
  | _ => []

/-- One iteration of the portal-pairing loop of `_build_level_from_tokens`
(editor_source.py, pairing block): set `a.portal_pair_ref = b`, then set
`b.portal_pair_ref = a` only if still unset; a pair whose endpoints are not
both existing portal specs, or whose endpoints are the same spec, is skipped.
Portal specs are identified by the grid cell keying them in `portal_specs`. -/
def assign_step (portal_keys : List Position) (m : List (Position × Position))
    (ab : Position × Position) : List (Position × Position) :=
  if ab.1 ∈ portal_keys ∧ ab.2 ∈ portal_keys ∧ ab.1 ≠ ab.2 then
    let m1 := store_set m ab.1 ab.2
    if store_get m1 ab.2 = none then store_set m1 ab.2 ab.1 else m1
  else m

/-- The pair-reference map the pairing loop produces, starting from fresh
portal specs whose pair references are all unset. -/
def assign_portal_pairs (portal_keys : List Position)
    (pairs : List (Position × Position)) : List (Position × Position) :=
  pairs.foldl (assign_step portal_keys) []

/-- Symmetry of a pair-reference map: whenever A pairs to B, B pairs back to
A. -/
def pair_map_symmetric (m : List (Position × Position)) : Prop :=
  ∀ a b : Position, store_get m a = some b → store_get m b = some a

def pair_endpoints : List (Position × Position) → List Position
  | [] => []
  | ab :: rest => ab.1 :: ab.2 :: pair_endpoints rest

/-- The two portal cells of the spec portal scenario, in reading order. -/
def portal_key_demo : List Position := [⟨0, 0⟩, ⟨4, 4⟩]

/-! ## Theorems -/

theorem store_get_store_set {α β : Type} [DecidableEq α]
    (m : List (α × β)) (a x : α) (b : β) :
    store_get (store_set m a b) x = if x = a then some b else store_get m x := by
  induction m with
  | nil => simp [store_set, store_get]
  | cons kv rest ih =>
    obtain ⟨k, v⟩ := kv
    by_cases hak : a = k
    · subst hak
      by_cases hxa : x = a <;> simp [store_set, store_get, hxa]
    · by_cases hxk : x = k
      · subst hxk
        simp [store_set, store_get, hak, Ne.symm hak]
      · simp [store_set, store_get, hak, hxk, ih]

theorem store_get_foldl_store_set {α β : Type} [DecidableEq α]
    (l : List α) (m : List (α × β)) (b : β) (x : α) :
    store_get (l.foldl (fun acc e => store_set acc e b) m) x =
      if x ∈ l then some b else store_get m x := by
  induction l generalizing m with
  | nil => simp
  | cons a rest ih =>
    simp only [List.foldl_cons, ih, store_get_store_set, List.mem_cons]
    by_cases hx : x ∈ rest
    · simp [hx]
    · by_cases hxa : x = a <;> simp [hx, hxa]

theorem store_get_mem {α β : Type} [DecidableEq α]
    {m : List (α × β)} {a : α} {b : β} (h : store_get m a = some b) :
    (a, b) ∈ m := by
  induction m with
  | nil => simp [store_get] at h
  | cons kv rest ih =>
    obtain ⟨k, v⟩ := kv
    by_cases hak : a = k
    · subst hak
      simp [store_get] at h
      simp [h]
    · simp [store_get, hak] at h
      exact List.mem_cons_of_mem _ (ih h)

theorem mem_entities_with_components_at
    (s : State) (pos : Position) (store : List Nat) (e : Nat) :
    e ∈ entities_with_components_at s pos store ↔
      store_get s.position e = some pos ∧ e ∈ store := by
  unfold entities_with_components_at
  simp only [List.mem_map, List.mem_filter, decide_eq_true_eq]
  constructor
  · rintro ⟨⟨k, v⟩, ⟨-, hget, hst⟩, rfl⟩
    exact ⟨hget, hst⟩
  · rintro ⟨hget, hst⟩
    exact ⟨(e, pos), ⟨store_get_mem hget, hget, hst⟩, rfl⟩

theorem is_blocked_at_true_of (s : State) (d : Position) (b : Nat)
    (hb : store_get s.position b = some d)
    (hbc : b ∈ s.blocking ∨ b ∈ s.collidable) :
    is_blocked_at s d true = true := by
  unfold is_blocked_at
  rw [List.any_eq_true]
  refine ⟨(b, d), store_get_mem hb, ?_⟩
  simp only [decide_eq_true_eq]
  exact ⟨hb, hbc.imp id fun h => ⟨by simp, h⟩⟩

theorem push_system_eq_of_blocked (s : State) (eid : Nat) (cur next_pos d : Position)
    (hcur : store_get s.position eid = some cur)
    (hdest : compute_destination s cur next_pos = some d)
    (hb : is_blocked_at s d true = true) :
    push_system s eid next_pos = s := by
  unfold push_system
  rw [hcur]
  by_cases hne : entities_with_components_at s next_pos s.pushable = []
  · simp [hne]
  · simp [hne, hdest, hb]

theorem push_system_eq_of_free (s : State) (eid : Nat) (cur next_pos d : Position)
    (hcur : store_get s.position eid = some cur)
    (hne : entities_with_components_at s next_pos s.pushable ≠ [])
    (hdest : compute_destination s cur next_pos = some d)
    (hnb : is_blocked_at s d true = false) :
    push_system s eid next_pos =
      { s with position :=
          ((entities_with_components_at s next_pos s.pushable).foldl
            (fun m p => store_set m p d) (store_set s.position eid next_pos)) } := by
  unfold push_system
  rw [hcur]
  simp [hne, hdest, hnb]

/-- C1: push atomicity — for a pusher with a position and an adjacent target
cell holding at least one pushable entity, if the computed destination is
blocked by a blocking/collidable entity then `push_system` returns the prior
state unchanged; otherwise the pusher relocates to the target cell, every
pushable entity at the target cell relocates to the destination cell, and no
other entity's position changes — no partial moves occur. -/
theorem push_system_atomic (s : State) (eid : Nat) (cur next_pos d : Position)
    (hcur : store_get s.position eid = some cur)
    (hadj : cur ≠ next_pos)
    (hne : entities_with_components_at s next_pos s.pushable ≠ [])
    (hdest : compute_destination s cur next_pos = some d) :
    (is_blocked_at s d true = true → push_system s eid next_pos = s) ∧
    (is_blocked_at s d true = false →
      store_get (push_system s eid next_pos).position eid = some next_pos ∧
      (∀ p ∈ entities_with_components_at s next_pos s.pushable,
        store_get (push_system s eid next_pos).position p = some d) ∧
      (∀ q, q ∉ entities_with_components_at s next_pos s.pushable → q ≠ eid →
        store_get (push_system s eid next_pos).position q =
          store_get s.position q)) := by
  constructor
  · intro hb
    exact push_system_eq_of_blocked s eid cur next_pos d hcur hdest hb
  · intro hnb
    rw [push_system_eq_of_free s eid cur next_pos d hcur hne hdest hnb]
    have heid : eid ∉ entities_with_components_at s next_pos s.pushable := by
      intro hmem
      rw [mem_entities_with_components_at] at hmem
      rw [hcur] at hmem
      exact hadj (Option.some.inj hmem.1)
    refine ⟨?_, ?_, ?_⟩
    · simp [store_get_foldl_store_set, store_get_store_set, heid]
    · intro p hp
      simp [store_get_foldl_store_set, hp]
    · intro q hq hqe
      simp [store_get_foldl_store_set, store_get_store_set, hq, hqe]

/-- Witness for C1 at the spec scenario: on `push_demo_state`, pushing right
moves the agent to (1,0) and the box to (2,0). -/
theorem push_system_atomic_witness :
    store_get (push_system push_demo_state 0 ⟨1, 0⟩).position 0 = some ⟨1, 0⟩ ∧
    store_get (push_system push_demo_state 0 ⟨1, 0⟩).position 1 = some ⟨2, 0⟩ := by
  have h := push_system_atomic push_demo_state 0 ⟨0, 0⟩ ⟨1, 0⟩ ⟨2, 0⟩
    (by decide) (by decide) (by decide) (by decide)
  exact ⟨(h.2 (by decide)).1, (h.2 (by decide)).2.1 1 (by decide)⟩

/-- C3 counterexample: pusher at (0,0), pushable boxes at (1,0) and (2,0),
free cell at (3,0). The claim requires every pushable in the chain to move one
cell (box 2 to (3,0)) and the pusher to advance; instead `push_system` finds
the destination (2,0) occupied by the collidable box 2 and returns the state
unchanged — nothing moves. -/
theorem push_chain_counterexample :
    push_system chain_state 0 ⟨1, 0⟩ = chain_state ∧
    store_get (push_system chain_state 0 ⟨1, 0⟩).position 0 = some ⟨0, 0⟩ ∧
    store_get (push_system chain_state 0 ⟨1, 0⟩).position 1 = some ⟨1, 0⟩ ∧
    store_get (push_system chain_state 0 ⟨1, 0⟩).position 2 = some ⟨2, 0⟩ := by
  decide

/-- C3 (amended): `push_system` does not resolve chained pushes — when the
push destination cell is occupied by any blocking or collidable entity, in
particular by a second collidable pushable box of a chain, the whole push is
aborted and the prior state is returned unchanged. -/
theorem push_chain_abort (s : State) (eid b : Nat) (cur next_pos d : Position)
    (hcur : store_get s.position eid = some cur)
    (hdest : compute_destination s cur next_pos = some d)
    (hb : store_get s.position b = some d)
    (hbc : b ∈ s.blocking ∨ b ∈ s.collidable) :
    push_system s eid next_pos = s :=
  push_system_eq_of_blocked s eid cur next_pos d hcur hdest
    (is_blocked_at_true_of s d b hb hbc)

/-- Witness for the amended C3 at the chain scenario: the push into the
two-box chain on `chain_state` leaves the state unchanged. -/
theorem push_chain_abort_witness :
    push_system chain_state 0 ⟨1, 0⟩ = chain_state := by
  exact push_chain_abort chain_state 0 2 ⟨0, 0⟩ ⟨1, 0⟩ ⟨2, 0⟩
    (by decide) (by decide) (by decide) (Or.inr (by decide))

/-- C4: `compute_destination` returns the cell one step beyond `next_pos`
along the vector from `current_pos`; under the wrap-around move function the
coordinates are taken modulo width/height; otherwise an out-of-bounds
destination yields `none`, and a `none` destination makes `push_system`
resolve silently as a no-op returning the state unchanged. -/
theorem compute_destination_characterization (s : State) (cur next : Position) :
    (compute_destination s cur next =
      if s.move_fn = MoveFn.wrap_around then
        some ⟨(next.x + (next.x - cur.x)) % (s.width : Int),
              (next.y + (next.y - cur.y)) % (s.height : Int)⟩
      else if 0 ≤ next.x + (next.x - cur.x) ∧
              next.x + (next.x - cur.x) < (s.width : Int) ∧
              0 ≤ next.y + (next.y - cur.y) ∧
              next.y + (next.y - cur.y) < (s.height : Int)
      then some ⟨next.x + (next.x - cur.x), next.y + (next.y - cur.y)⟩
      else none) ∧
    (∀ eid : Nat, store_get s.position eid = some cur →
      compute_destination s cur next = none → push_system s eid next = s) := by
  constructor
  · unfold compute_destination wrap_position is_in_bounds
    split
    · rfl
    · split_ifs <;> simp_all
  · intro eid hcur hnone
    unfold push_system
    rw [hcur]
    by_cases hne : entities_with_components_at s next s.pushable = []
    · simp [hne]
    · simp [hne, hnone]

/-- Witness for C4: on `push_demo_state` (bounded 3×1 grid) pushing left from
(1,0) towards (0,0) would land at (−1,0), out of bounds — the destination is
`none` and `push_system` is a no-op. -/
theorem compute_destination_characterization_witness :
    compute_destination push_demo_state ⟨1, 0⟩ ⟨0, 0⟩ = none ∧
    push_system push_demo_state 1 ⟨0, 0⟩ = push_demo_state := by
  have h := compute_destination_characterization push_demo_state ⟨1, 0⟩ ⟨0, 0⟩
  refine ⟨by decide, ?_⟩
  exact h.2 1 (by decide) (by decide)

/-- C5 (code bug): on the spec scenario the push succeeds — the box is
relocated to (2,0) — yet the state returned by `push_system` carries the
input's trail store unchanged: the destination cell does not appear in any
trail, because the source discards the state returned by
`add_trail_position`. The last conjunct shows what the discarded call would
have recorded. -/
theorem push_system_drops_trail :
    store_get (push_system push_demo_state 0 ⟨1, 0⟩).position 1 = some ⟨2, 0⟩ ∧
    (push_system push_demo_state 0 ⟨1, 0⟩).trail = push_demo_state.trail ∧
    store_get (push_system push_demo_state 0 ⟨1, 0⟩).trail ⟨2, 0⟩ = none ∧
    store_get (add_trail_position push_demo_state 1 ⟨2, 0⟩).trail ⟨2, 0⟩ =
      some [1] := by
  decide

theorem portal_system_entity_get (s : State) (aug : List (Position × List Nat))
    (pid : Nat) (pc : Portal) (ppos pairpos : Position)
    (hpc : store_get s.portal pid = some pc)
    (hpos : store_get s.position pid = some ppos)
    (hpair : store_get s.position pc.pair_entity = some pairpos)
    (e : Nat) :
    store_get (portal_system_entity s aug pid).position e =
      if e ∈ (store_get aug ppos).getD [] ∧ e ∈ s.collidable ∧
         store_get s.prev_position e ≠ store_get s.position e
      then some pairpos else store_get s.position e := by
  unfold portal_system_entity
  rw [hpc, hpos]
  dsimp only
  rw [hpair]
  dsimp only
  rw [store_get_foldl_store_set]
  simp only [List.mem_filter, decide_eq_true_eq, and_assoc]

/-- C2: for a portal with a position, a portal component and a pair with a
resolvable position, `portal_system_entity` relocates to the pair's position
exactly the entities that are collidable, appear in the augmented trail at the
portal's cell, and whose previous position differs from their current one;
every other entity — in particular one that started the step resting at the
portal's cell — keeps its position. -/
theorem portal_entering_exact (s : State) (aug : List (Position × List Nat))
    (pid : Nat) (pc : Portal) (ppos pairpos : Position)
    (hpc : store_get s.portal pid = some pc)
    (hpos : store_get s.position pid = some ppos)
    (hpair : store_get s.position pc.pair_entity = some pairpos)
    (e : Nat) :
    store_get (portal_system_entity s aug pid).position e =
      if e ∈ (store_get aug ppos).getD [] ∧ e ∈ s.collidable ∧
         store_get s.prev_position e ≠ store_get s.position e
      then some pairpos else store_get s.position e :=
  portal_system_entity_get s aug pid pc ppos pairpos hpc hpos hpair e

/-- Witness for C2 at the spec scenario: agent 0 (which just entered (0,0)) is
teleported to (4,4); resting entity 3 stays at (0,0). -/
theorem portal_entering_exact_witness :
    store_get (portal_system_entity portal_demo_state portal_demo_aug 10).position 0 =
      some ⟨4, 4⟩ ∧
    store_get (portal_system_entity portal_demo_state portal_demo_aug 10).position 3 =
      some ⟨0, 0⟩ := by
  have h0 := portal_entering_exact portal_demo_state portal_demo_aug 10 ⟨11⟩
    ⟨0, 0⟩ ⟨4, 4⟩ (by decide) (by decide) (by decide) 0
  have h3 := portal_entering_exact portal_demo_state portal_demo_aug 10 ⟨11⟩
    ⟨0, 0⟩ ⟨4, 4⟩ (by decide) (by decide) (by decide) 3
  rw [h0, h3]
  refine ⟨by decide, by decide⟩

/-- C6: teleport bypasses destination blocking — an entity satisfying the
entering condition at a portal with a valid pair is relocated to the pair's
cell unconditionally, even when a blocking entity occupies that cell. -/
theorem portal_teleport_bypasses_blocking (s : State)
    (aug : List (Position × List Nat)) (pid : Nat) (pc : Portal)
    (ppos pairpos : Position) (e b : Nat)
    (hpc : store_get s.portal pid = some pc)
    (hpos : store_get s.position pid = some ppos)
    (hpair : store_get s.position pc.pair_entity = some pairpos)
    (htrail : e ∈ (store_get aug ppos).getD [])
    (hcoll : e ∈ s.collidable)
    (hmoved : store_get s.prev_position e ≠ store_get s.position e)
    (_hb : b ∈ s.blocking)
    (_hbpos : store_get s.position b = some pairpos) :
    store_get (portal_system_entity s aug pid).position e = some pairpos := by
  rw [portal_system_entity_get s aug pid pc ppos pairpos hpc hpos hpair e]
  exact if_pos ⟨htrail, hcoll, hmoved⟩

/-- Witness for C6: on `portal_blocked_state` the wall 5 stands on (4,4), yet
entering agent 0 lands exactly there. -/
theorem portal_teleport_bypasses_blocking_witness :
    store_get (portal_system_entity portal_blocked_state portal_demo_aug 10).position 0 =
      some ⟨4, 4⟩ :=
  portal_teleport_bypasses_blocking portal_blocked_state portal_demo_aug 10 ⟨11⟩
    ⟨0, 0⟩ ⟨4, 4⟩ 0 5 (by decide) (by decide) (by decide) (by decide) (by decide)
    (by decide) (by decide) (by decide)

/-- C7: a portal whose entity lacks a position, lacks a portal component, or
whose pair entity has no resolvable position is inert —
`portal_system_entity` returns the input state unchanged (and, being a total
function, raises nothing). -/
theorem portal_system_entity_inert_dangling (s : State)
    (aug : List (Position × List Nat)) (pid : Nat)
    (h : store_get s.position pid = none ∨ store_get s.portal pid = none ∨
      ∀ pc, store_get s.portal pid = some pc →
        store_get s.position pc.pair_entity = none) :
    portal_system_entity s aug pid = s := by
  unfold portal_system_entity
  rcases h with h | h | h
  · rw [h]
    rcases store_get s.portal pid with _ | pc <;> rfl
  · rw [h]
  · rcases hpc : store_get s.portal pid with _ | pc
    · rcases store_get s.position pid with _ | ppos <;> rfl
    · rcases store_get s.position pid with _ | ppos
      · rfl
      · dsimp only
        rw [h pc hpc]

/-- Witness for C7: portal 20 of `dangling_portal_state` pairs to entity 99,
which has no position — the system leaves the state untouched. -/
theorem portal_system_entity_inert_dangling_witness :
    portal_system_entity dangling_portal_state portal_demo_aug 20 =
      dangling_portal_state :=
  portal_system_entity_inert_dangling dangling_portal_state portal_demo_aug 20
    (Or.inr (Or.inr (by decide)))

theorem agrees_off_position_refl (s : State) : agrees_off_position s s := by
  simp [agrees_off_position]

theorem agrees_off_position_update (s : State) (m : List (Nat × Position)) :
    agrees_off_position { s with position := m } s := by
  simp [agrees_off_position]

theorem agrees_off_position_trans {a b c : State}
    (h1 : agrees_off_position a b) (h2 : agrees_off_position b c) :
    agrees_off_position a c := by
  unfold agrees_off_position at *
  obtain ⟨e1, e2, e3, e4, e5, e6, e7, e8, e9, e10, e11, e12,
    e13, e14, e15, e16, e17, e18, e19, e20, e21, e22, e23, e24⟩ := h1
  obtain ⟨f1, f2, f3, f4, f5, f6, f7, f8, f9, f10, f11, f12,
    f13, f14, f15, f16, f17, f18, f19, f20, f21, f22, f23, f24⟩ := h2
  exact ⟨e1.trans f1, e2.trans f2, e3.trans f3, e4.trans f4, e5.trans f5,
    e6.trans f6, e7.trans f7, e8.trans f8, e9.trans f9, e10.trans f10,
    e11.trans f11, e12.trans f12, e13.trans f13, e14.trans f14,
    e15.trans f15, e16.trans f16, e17.trans f17, e18.trans f18,
    e19.trans f19, e20.trans f20, e21.trans f21, e22.trans f22,
    e23.trans f23, e24.trans f24⟩

theorem push_system_frame (s : State) (eid : Nat) (next_pos : Position) :
    agrees_off_position (push_system s eid next_pos) s := by
  unfold push_system
  split
  · exact agrees_off_position_refl s
  · dsimp only
    split
    · exact agrees_off_position_refl s
    · split
      · exact agrees_off_position_refl s
      · split
        · exact agrees_off_position_refl s
        · exact agrees_off_position_update s _

theorem portal_system_entity_frame (s : State)
    (aug : List (Position × List Nat)) (pid : Nat) :
    agrees_off_position (portal_system_entity s aug pid) s := by
  unfold portal_system_entity
  split
  · split
    · exact agrees_off_position_refl s
    · exact agrees_off_position_update s _
  · exact agrees_off_position_refl s

theorem portal_fold_frame (aug : List (Position × List Nat)) (l : List Nat)
    (s : State) :
    agrees_off_position
      (l.foldl (fun st portal_id => portal_system_entity st aug portal_id) s)
      s := by
  induction l generalizing s with
  | nil => exact agrees_off_position_refl s
  | cons a rest ih =>
    exact agrees_off_position_trans (ih (portal_system_entity s aug a))
      (portal_system_entity_frame s aug a)

theorem portal_system_frame (s : State) :
    agrees_off_position (portal_system s) s :=
  portal_fold_frame (get_augmented_trail s s.collidable)
    (s.portal.map Prod.fst) s

/-- C10: position-only frame — `push_system`, `portal_system_entity` and
`portal_system` return a state in which only the position store may differ
from the input: the grid dimensions, the move and objective functions, the
seed and every other component store are identical to the input's. -/
theorem systems_position_only_frame (s : State) (eid : Nat)
    (next_pos : Position) (aug : List (Position × List Nat)) (pid : Nat) :
    agrees_off_position (push_system s eid next_pos) s ∧
    agrees_off_position (portal_system_entity s aug pid) s ∧
    agrees_off_position (portal_system s) s :=
  ⟨push_system_frame s eid next_pos, portal_system_entity_frame s aug pid,
    portal_system_frame s⟩

/-- C8: authoring validation — constructing the environment from a level with
no agent entity fails with the agent error before any step runs; this is the
only surfaced error; construction succeeds for any level with at least one
agent. -/
theorem make_env_agent_validation (sample : State) :
    (sample.agent = [] → _make_env sample = Except.error agent_error_message) ∧
    (∀ msg, _make_env sample = Except.error msg →
      msg = agent_error_message ∧ sample.agent = []) ∧
    (sample.agent ≠ [] →
      _make_env sample =
        Except.ok ⟨sample, sample.width, sample.height⟩) := by
  refine ⟨fun h => by simp [_make_env, h], ?_, fun h => by simp [_make_env, h]⟩
  intro msg hmsg
  unfold _make_env at hmsg
  by_cases h : sample.agent = []
  · rw [if_pos h] at hmsg
    cases hmsg
    exact ⟨rfl, h⟩
  · rw [if_neg h] at hmsg
    cases hmsg

/-- Witness for C8: the agentless level errors with the agent message; the
spec push scenario (agent 0 present) constructs the environment. -/
theorem make_env_agent_validation_witness :
    _make_env no_agent_state = Except.error agent_error_message ∧
    _make_env push_demo_state =
      Except.ok ⟨push_demo_state, push_demo_state.width,
        push_demo_state.height⟩ := by
  refine ⟨(make_env_agent_validation no_agent_state).1 rfl, ?_⟩
  exact (make_env_agent_validation push_demo_state).2.2 (by decide)

theorem assign_step_symmetric (keys : List Position)
    (m : List (Position × Position)) (ab : Position × Position)
    (hsym : pair_map_symmetric m)
    (ha : store_get m ab.1 = none) (hb : store_get m ab.2 = none) :
    pair_map_symmetric (assign_step keys m ab) ∧
    (∀ x, store_get (assign_step keys m ab) x ≠ none →
      store_get m x ≠ none ∨ x = ab.1 ∨ x = ab.2) := by
  unfold assign_step
  by_cases hcond : ab.1 ∈ keys ∧ ab.2 ∈ keys ∧ ab.1 ≠ ab.2
  · rw [if_pos hcond]
    have hne := hcond.2.2
    have hb1 : store_get (store_set m ab.1 ab.2) ab.2 = none := by
      rw [store_get_store_set, if_neg (Ne.symm hne)]
      exact hb
    rw [if_pos hb1]
    have hget : ∀ x, store_get (store_set (store_set m ab.1 ab.2) ab.2 ab.1) x =
        if x = ab.2 then some ab.1
        else if x = ab.1 then some ab.2 else store_get m x := by
      intro x
      rw [store_get_store_set, store_get_store_set]
    constructor
    · intro x y hxy
      rw [hget] at hxy
      rw [hget]
      by_cases hx2 : x = ab.2
      · rw [if_pos hx2] at hxy
        cases hxy
        rw [if_neg hne, if_pos rfl, hx2]
      · rw [if_neg hx2] at hxy
        by_cases hx1 : x = ab.1
        · rw [if_pos hx1] at hxy
          cases hxy
          rw [if_pos rfl, hx1]
        · rw [if_neg hx1] at hxy
          have hy := hsym x y hxy
          have hy2 : y ≠ ab.2 := by
            intro he
            rw [he, hb] at hy
            cases hy
          have hy1 : y ≠ ab.1 := by
            intro he
            rw [he, ha] at hy
            cases hy
          rw [if_neg hy2, if_neg hy1]
          exact hy
    · intro x hx
      by_cases hx2 : x = ab.2
      · exact Or.inr (Or.inr hx2)
      · by_cases hx1 : x = ab.1
        · exact Or.inr (Or.inl hx1)
        · rw [hget, if_neg hx2, if_neg hx1] at hx
          exact Or.inl hx
  · rw [if_neg hcond]
    exact ⟨hsym, fun x hx => Or.inl hx⟩

theorem assign_fold_symmetric (keys : List Position)
    (pairs : List (Position × Position)) (m : List (Position × Position))
    (hsym : pair_map_symmetric m)
    (hdisj : ∀ x, store_get m x ≠ none → x ∉ pair_endpoints pairs)
    (hnodup : (pair_endpoints pairs).Nodup) :
    pair_map_symmetric (pairs.foldl (assign_step keys) m) := by
  induction pairs generalizing m with
  | nil => exact hsym
  | cons ab rest ih =>
    simp only [pair_endpoints, List.nodup_cons, List.mem_cons,
      not_or] at hnodup
    obtain ⟨⟨hne, h1rest⟩, h2rest, hrest⟩ := hnodup
    have ha : store_get m ab.1 = none := by
      by_contra hx
      exact hdisj ab.1 hx (by simp [pair_endpoints])
    have hb : store_get m ab.2 = none := by
      by_contra hx
      exact hdisj ab.2 hx (by simp [pair_endpoints])
    obtain ⟨hsym2, hdom⟩ := assign_step_symmetric keys m ab hsym ha hb
    refine ih (assign_step keys m ab) hsym2 ?_ hrest
    intro x hx
    rcases hdom x hx with hmx | rfl | rfl
    · intro hmem
      exact hdisj x hmx (by simp [pair_endpoints, hmem])
    · exact h1rest
    · exact h2rest

theorem seq_pairs_endpoints_sublist : ∀ l : List Position,
    (pair_endpoints (seq_pairs l)).Sublist l
  | [] => by simp [seq_pairs, pair_endpoints]
  | [a] => by simp [seq_pairs, pair_endpoints]
  | a :: b :: rest => by
    have ih := seq_pairs_endpoints_sublist rest
    simp only [seq_pairs, pair_endpoints]
    exact (ih.cons₂ b).cons₂ a

/-- C9: portal pairing symmetry — for distinct authored portal cells, the pair
map built by `_build_level_from_tokens` from the sequential reading-order
pairs is symmetric: whenever portal A pairs to portal B, B pairs back to A. -/
theorem portal_pairing_symmetric (portal_positions : List Position)
    (hnodup : portal_positions.Nodup) :
    pair_map_symmetric
      (assign_portal_pairs portal_positions (seq_pairs portal_positions)) := by
  apply assign_fold_symmetric
  · intro a b h
    simp [store_get] at h
  · intro x hx
    simp [store_get] at hx
  · exact ((seq_pairs_endpoints_sublist portal_positions).nodup hnodup)

/-- Witness for C9: authoring portals at (0,0) and (4,4) pairs them both
ways. -/
theorem portal_pairing_symmetric_witness :
    store_get (assign_portal_pairs portal_key_demo (seq_pairs portal_key_demo))
      ⟨0, 0⟩ = some ⟨4, 4⟩ ∧
    store_get (assign_portal_pairs portal_key_demo (seq_pairs portal_key_demo))
      ⟨4, 4⟩ = some ⟨0, 0⟩ := by
  refine ⟨by decide, ?_⟩
  exact portal_pairing_symmetric portal_key_demo (by decide) ⟨0, 0⟩ ⟨4, 4⟩
    (by decide)

end GridUniverse
